import Mathlib

/-
Verification of the Point / Rectangle value types declared in
src/Point.h and src/Rectangle.h.  The repository ships only the header
declarations; the method bodies are modelled from the specification,
which fixes the reference arithmetic as silent wraparound of native
fixed-width signed integers (C++ int, 32 bits here).  Coordinates are
embedded as Lean Int with an explicit reduction modulo 2^32 into the
signed range wherever the program performs arithmetic.
-/

/-- Signed 32-bit wraparound: reduce an integer into [-2^31, 2^31). -/
def wrap32 (z : Int) : Int :=
  (z + 2147483648) % 4294967296 - 2147483648

/-- The value fits in a signed 32-bit integer, so no wrap occurs. -/
abbrev int32_inRange (z : Int) : Prop :=
  -2147483648 ≤ z ∧ z < 2147483648

/-- Wrapping addition of two C++ int values. -/
def int32_add (a b : Int) : Int := wrap32 (a + b)

/-- Wrapping subtraction of two C++ int values. -/
def int32_sub (a b : Int) : Int := wrap32 (a - b)

/-- Wrapping multiplication of two C++ int values. -/
def int32_mul (a b : Int) : Int := wrap32 (a * b)

/-- A 2D integer coordinate, from src/Point.h: private fields x and y. -/
@[ext]
structure Point where
  x : Int
  y : Int
deriving DecidableEq

/-- Modelled from the spec: the default constructor Point() produces
the point at coordinates (0, 0). -/
def Point.default : Point := ⟨0, 0⟩

/-- Modelled from the spec: Point(xval, yval) produces a Point at the
given integer coordinates, with no preconditions and no failure mode. -/
def Point.construct (xval yval : Int) : Point := ⟨xval, yval⟩

/-- Modelled from the spec: move(dx, dy) mutates the point in place,
setting x := x + dx and y := y + dy, overflow wrapping silently. -/
def Point.move (p : Point) (dx dy : Int) : Point :=
  ⟨int32_add p.x dx, int32_add p.y dy⟩

/-- Modelled from the spec: pure accessor for the x coordinate. -/
def Point.get_x (p : Point) : Int := p.x

/-- Modelled from the spec: pure accessor for the y coordinate. -/
def Point.get_y (p : Point) : Int := p.y

/-- An axis-aligned rectangle, from src/Rectangle.h: private fields
bottom_left and top_right, each a Point held by value. -/
@[ext]
structure Rectangle where
  bottom_left : Point
  top_right : Point
deriving DecidableEq

/-- Modelled from the spec: the default constructor Rectangle()
produces a degenerate rectangle with both corners at (0, 0). -/
def Rectangle.default : Rectangle := ⟨⟨0, 0⟩, ⟨0, 0⟩⟩

/-- Modelled from the spec: Rectangle(bl, tr) copies the supplied
corner points by value, with no validation of corner ordering. -/
def Rectangle.construct (bl tr : Point) : Rectangle := ⟨bl, tr⟩

/-- Modelled from the spec: move(dx, dy) translates both corner points
in place by the same deltas, each coordinate wrapping silently. -/
def Rectangle.move (r : Rectangle) (dx dy : Int) : Rectangle :=
  ⟨⟨int32_add r.bottom_left.x dx, int32_add r.bottom_left.y dy⟩,
   ⟨int32_add r.top_right.x dx, int32_add r.top_right.y dy⟩⟩

/-- Modelled from the spec: accessor returning a by-value copy of the
bottom-left corner. -/
def Rectangle.get_bottom_left (r : Rectangle) : Point := r.bottom_left

/-- Modelled from the spec: accessor returning a by-value copy of the
top-right corner. -/
def Rectangle.get_top_right (r : Rectangle) : Point := r.top_right

/-- Modelled from the spec: width() returns top_right.x - bottom_left.x
with no clamping to zero. -/
def Rectangle.width (r : Rectangle) : Int :=
  int32_sub r.top_right.x r.bottom_left.x

/-- Modelled from the spec: height() returns top_right.y - bottom_left.y
with no clamping to zero. -/
def Rectangle.height (r : Rectangle) : Int :=
  int32_sub r.top_right.y r.bottom_left.y

/-- Modelled from the spec: area() returns width() * height(). -/
def Rectangle.area (r : Rectangle) : Int :=
  int32_mul r.width r.height

/-- Modelled from the spec: rectangle translation phrased the way the
spec explains it, as the point-translation operation applied to both
corner points with identical deltas. -/
def Rectangle.moveViaPointMove (r : Rectangle) (dx dy : Int) : Rectangle :=
  ⟨r.bottom_left.move dx dy, r.top_right.move dx dy⟩

/-- The three const observer methods of Rectangle declared in
src/Rectangle.h. -/
inductive Observer where
  | width
  | height
  | area
deriving DecidableEq

/-- Value computed by an observer method on a given rectangle. -/
def Rectangle.observe (c : Observer) (r : Rectangle) : Int :=
  match c with
  | Observer.width => r.width
  | Observer.height => r.height
  | Observer.area => r.area

/-- Modelled from the spec and the const declarations in
src/Rectangle.h: invoking a const observer method returns its value
together with the receiver object, whose fields it cannot modify. -/
def Rectangle.callObserver (c : Observer) (r : Rectangle) : Int × Rectangle :=
  (Rectangle.observe c r, r)

/-- Run a sequence of observer calls, threading the receiver state
from each call into the next, collecting the returned values. -/
def Rectangle.runObservers (calls : List Observer) (r : Rectangle) :
    List Int × Rectangle :=
  match calls with
  | [] => ([], r)
  | c :: cs =>
      let step := Rectangle.callObserver c r
      let rest := Rectangle.runObservers cs step.2
      (step.1 :: rest.1, rest.2)

/-- Modelled from the spec and the by-value return type in
src/Rectangle.h: fetch the bottom-left corner through the accessor,
move the returned copy, and keep the rectangle; the copy is an
independent Point, so the rectangle is returned as it was. -/
def Rectangle.moveCopyOfBottomLeft (r : Rectangle) (dx dy : Int) :
    Point × Rectangle :=
  ((r.get_bottom_left).move dx dy, r)

/-- Modelled from the spec and the by-value return type in
src/Rectangle.h: fetch the top-right corner through the accessor,
move the returned copy, and keep the rectangle. -/
def Rectangle.moveCopyOfTopRight (r : Rectangle) (dx dy : Int) :
    Point × Rectangle :=
  ((r.get_top_right).move dx dy, r)

/- Helper lemmas on the wrapping arithmetic. -/

theorem wrap32_eq_self {z : Int} (h : int32_inRange z) : wrap32 z = z := by
  simp only [wrap32]
  omega

theorem wrap32_add_left (a b : Int) :
    wrap32 (wrap32 a + b) = wrap32 (a + b) := by
  simp only [wrap32]
  omega

theorem wrap32_add_right (a b : Int) :
    wrap32 (a + wrap32 b) = wrap32 (a + b) := by
  simp only [wrap32]
  omega

theorem wrap32_sub_congr (a b : Int) :
    wrap32 (wrap32 a - wrap32 b) = wrap32 (a - b) := by
  simp only [wrap32]
  omega

theorem wrap32_add_multiple (z k : Int) :
    wrap32 (z + 4294967296 * k) = wrap32 z := by
  simp only [wrap32]
  omega

theorem wrap32_shift (a : Int) :
    ∃ q, wrap32 a = a + 4294967296 * q := by
  refine ⟨-((a + 2147483648) / 4294967296), ?_⟩
  simp only [wrap32]
  omega

theorem wrap32_mul_congr (a b : Int) :
    wrap32 (wrap32 a * wrap32 b) = wrap32 (a * b) := by
  obtain ⟨qa, ha⟩ := wrap32_shift a
  obtain ⟨qb, hb⟩ := wrap32_shift b
  rw [ha, hb]
  have hprod : (a + 4294967296 * qa) * (b + 4294967296 * qb) =
      a * b + 4294967296 * (a * qb + qa * b + 4294967296 * (qa * qb)) := by
    ring
  rw [hprod, wrap32_add_multiple]

/- Claim theorems. -/

/-- Claim C1: area() returns exactly width() * height(), i.e. the
product (top_right.x - bottom_left.x) * (top_right.y - bottom_left.y)
in the native signed arithmetic, exact whenever the product fits in
32 bits, with no absolute value or clamping; the rectangle with
bottom_left (5,5) and top_right (2,2) has width -3, height -3 and
area 9. -/
theorem area_eq_width_mul_height (r : Rectangle) :
    r.area = wrap32 (r.width * r.height) ∧
    r.area =
      wrap32 ((r.top_right.x - r.bottom_left.x) *
        (r.top_right.y - r.bottom_left.y)) ∧
    (int32_inRange (r.width * r.height) → r.area = r.width * r.height) ∧
    (Rectangle.construct (Point.construct 5 5) (Point.construct 2 2)).width
      = -3 ∧
    (Rectangle.construct (Point.construct 5 5) (Point.construct 2 2)).height
      = -3 ∧
    (Rectangle.construct (Point.construct 5 5) (Point.construct 2 2)).area
      = 9 := by
  refine ⟨rfl, ?_, ?_, by decide, by decide, by decide⟩
  · simp only [Rectangle.area, Rectangle.width, Rectangle.height,
      int32_mul, int32_sub]
    exact wrap32_mul_congr _ _
  · intro h
    exact wrap32_eq_self h

/-- Claim C1 witness: the exactness clause instantiated at the
rectangle with corners (5,5) and (2,2), whose width times height is 9
and fits in 32 bits. -/
theorem area_eq_width_mul_height_witness :
    (Rectangle.construct (Point.construct 5 5) (Point.construct 2 2)).area =
      (Rectangle.construct (Point.construct 5 5) (Point.construct 2 2)).width *
      (Rectangle.construct (Point.construct 5 5) (Point.construct 2 2)).height :=
  (area_eq_width_mul_height
    (Rectangle.construct (Point.construct 5 5) (Point.construct 2 2))).2.2.1
    (by decide)

/-- Claim C2: width() returns top_right.x - bottom_left.x and height()
returns top_right.y - bottom_left.y in the native signed arithmetic,
exact whenever the difference fits in 32 bits and never clamped to
zero; the rectangle from (1,2) to (5,9) has width 4 and height 7, and
the inverted rectangle from (5,5) to (2,2) has width -3. -/
theorem width_height_formulas (r : Rectangle) :
    r.width = wrap32 (r.top_right.x - r.bottom_left.x) ∧
    r.height = wrap32 (r.top_right.y - r.bottom_left.y) ∧
    (int32_inRange (r.top_right.x - r.bottom_left.x) →
      r.width = r.top_right.x - r.bottom_left.x) ∧
    (int32_inRange (r.top_right.y - r.bottom_left.y) →
      r.height = r.top_right.y - r.bottom_left.y) ∧
    (Rectangle.construct (Point.construct 1 2) (Point.construct 5 9)).width
      = 4 ∧
    (Rectangle.construct (Point.construct 1 2) (Point.construct 5 9)).height
      = 7 ∧
    (Rectangle.construct (Point.construct 5 5) (Point.construct 2 2)).width
      = -3 := by
  refine ⟨rfl, rfl, ?_, ?_, by decide, by decide, by decide⟩ <;>
    exact fun h => wrap32_eq_self h

/-- Claim C2 witness: the exactness clauses instantiated at the
rectangle from (1,2) to (5,9), whose differences 4 and 7 fit in 32
bits. -/
theorem width_height_formulas_witness :
    (Rectangle.construct (Point.construct 1 2) (Point.construct 5 9)).width =
      (Rectangle.construct (Point.construct 1 2)
        (Point.construct 5 9)).top_right.x -
      (Rectangle.construct (Point.construct 1 2)
        (Point.construct 5 9)).bottom_left.x ∧
    (Rectangle.construct (Point.construct 1 2) (Point.construct 5 9)).height =
      (Rectangle.construct (Point.construct 1 2)
        (Point.construct 5 9)).top_right.y -
      (Rectangle.construct (Point.construct 1 2)
        (Point.construct 5 9)).bottom_left.y :=
  ⟨(width_height_formulas
      (Rectangle.construct (Point.construct 1 2) (Point.construct 5 9))).2.2.1
      (by decide),
   (width_height_formulas
      (Rectangle.construct (Point.construct 1 2) (Point.construct 5 9))).2.2.2.1
      (by decide)⟩

/-- Claim C3: after r.move(dx, dy), width() and height() are unchanged
and each corner coordinate is shifted by exactly the corresponding
delta in the native signed arithmetic; when none of the four shifted
coordinates overflows, the corners are exactly the old corners plus
(dx, dy). -/
theorem rectangle_move_frame (r : Rectangle) (dx dy : Int) :
    (r.move dx dy).width = r.width ∧
    (r.move dx dy).height = r.height ∧
    (r.move dx dy).bottom_left =
      Point.construct (int32_add r.bottom_left.x dx)
        (int32_add r.bottom_left.y dy) ∧
    (r.move dx dy).top_right =
      Point.construct (int32_add r.top_right.x dx)
        (int32_add r.top_right.y dy) ∧
    (int32_inRange (r.bottom_left.x + dx) →
      int32_inRange (r.bottom_left.y + dy) →
      int32_inRange (r.top_right.x + dx) →
      int32_inRange (r.top_right.y + dy) →
      (r.move dx dy).bottom_left =
        Point.construct (r.bottom_left.x + dx) (r.bottom_left.y + dy) ∧
      (r.move dx dy).top_right =
        Point.construct (r.top_right.x + dx) (r.top_right.y + dy)) := by
  refine ⟨?_, ?_, rfl, rfl, ?_⟩
  · simp only [Rectangle.move, Rectangle.width, int32_sub, int32_add, wrap32]
    omega
  · simp only [Rectangle.move, Rectangle.height, int32_sub, int32_add, wrap32]
    omega
  · intro h1 h2 h3 h4
    simp only [Rectangle.move, Point.construct, int32_add, Point.mk.injEq]
    exact ⟨⟨wrap32_eq_self h1, wrap32_eq_self h2⟩,
           ⟨wrap32_eq_self h3, wrap32_eq_self h4⟩⟩

/-- Claim C3 witness: the no-overflow clause instantiated at the
rectangle from (1,2) to (5,9) moved by (10, 20). -/
theorem rectangle_move_frame_witness :
    (Rectangle.construct (Point.construct 1 2)
        (Point.construct 5 9)).move 10 20 =
      Rectangle.construct (Point.construct 11 22) (Point.construct 15 29) := by
  have h := (rectangle_move_frame
    (Rectangle.construct (Point.construct 1 2) (Point.construct 5 9)) 10 20).2.2.2.2
    (by decide) (by decide) (by decide) (by decide)
  exact Rectangle.ext h.1 h.2

/-- Claim C4: p.move(dx, dy) sets get_x to old_x + dx and get_y to
old_y + dy in the native signed arithmetic, silently wrapping on
overflow with no saturation and no trap, and exact whenever the sum
fits in 32 bits. -/
theorem point_move_translates (p : Point) (dx dy : Int) :
    (p.move dx dy).get_x = wrap32 (p.get_x + dx) ∧
    (p.move dx dy).get_y = wrap32 (p.get_y + dy) ∧
    (int32_inRange (p.get_x + dx) → (p.move dx dy).get_x = p.get_x + dx) ∧
    (int32_inRange (p.get_y + dy) → (p.move dx dy).get_y = p.get_y + dy) := by
  refine ⟨rfl, rfl, ?_, ?_⟩ <;> exact fun h => wrap32_eq_self h

/-- Claim C4 witness: the exactness clauses instantiated at the point
(3, 4) moved by (100, -7). -/
theorem point_move_translates_witness :
    ((Point.construct 3 4).move 100 (-7)).get_x = 103 ∧
    ((Point.construct 3 4).move 100 (-7)).get_y = -3 :=
  ⟨(point_move_translates (Point.construct 3 4) 100 (-7)).2.2.1 (by decide),
   (point_move_translates (Point.construct 3 4) 100 (-7)).2.2.2 (by decide)⟩

/-- Claim C5: Point translation composes additively: moving by
(dx1, dy1) then by (dx2, dy2) equals one move by (dx1+dx2, dy1+dy2),
and hence successive moves commute. -/
theorem point_move_additive (p : Point) (dx1 dy1 dx2 dy2 : Int) :
    (p.move dx1 dy1).move dx2 dy2 = p.move (dx1 + dx2) (dy1 + dy2) ∧
    (p.move dx1 dy1).move dx2 dy2 = (p.move dx2 dy2).move dx1 dy1 := by
  cases p with
  | mk x y =>
      simp only [Point.move, int32_add, wrap32, Point.mk.injEq]
      refine ⟨⟨?_, ?_⟩, ⟨?_, ?_⟩⟩ <;> omega

/-- Claim C6: Rectangle::move is equivalent to applying the Point
translation operation to both corners with identical deltas: the
resulting rectangle state is identical under either formulation. -/
theorem rectangle_move_refines_point_move (r : Rectangle) (dx dy : Int) :
    r.move dx dy = r.moveViaPointMove dx dy := rfl

/-- Claim C7: a Point constructed with explicit coordinates (x, y)
satisfies get_x() == x and get_y() == y, for all integers, with no
precondition and no failure mode. -/
theorem point_construct_coords (x y : Int) :
    (Point.construct x y).get_x = x ∧ (Point.construct x y).get_y = y :=
  ⟨rfl, rfl⟩

/-- Claim C8: default construction yields the all-zero value: a
default Point is at (0, 0), and a default Rectangle has both corners
at (0, 0) with width, height and area all zero. -/
theorem default_construction_zero :
    Point.default.get_x = 0 ∧ Point.default.get_y = 0 ∧
    Rectangle.default.bottom_left = Point.construct 0 0 ∧
    Rectangle.default.top_right = Point.construct 0 0 ∧
    Rectangle.default.width = 0 ∧
    Rectangle.default.height = 0 ∧
    Rectangle.default.area = 0 := by
  refine ⟨rfl, rfl, rfl, rfl, ?_, ?_, ?_⟩ <;> decide

/-- Claim C9: the observer methods width(), height() and area() are
const and leave the Rectangle unchanged: any sequence of observer
calls ends with the receiver in its original state, and every call in
the sequence returns the value determined by that original state, so
repeated calls on an unmutated rectangle always agree. -/
theorem observers_are_pure (calls : List Observer) (r : Rectangle) :
    (Rectangle.runObservers calls r).2 = r ∧
    (Rectangle.runObservers calls r).1 =
      calls.map (fun c => Rectangle.observe c r) := by
  induction calls with
  | nil => exact ⟨rfl, rfl⟩
  | cons c cs ih =>
      simp only [Rectangle.runObservers, Rectangle.callObserver, List.map_cons]
      exact ⟨ih.1, by rw [ih.2]⟩

/-- Claim C10: get_bottom_left() and get_top_right() return the
corners by value as independent copies: moving the Point returned by
either accessor leaves the rectangle, its corners, and its width,
height and area unchanged, while the moved copy itself is the
translated corner. -/
theorem corner_copies_do_not_alias (r : Rectangle) (dx dy : Int) :
    (r.moveCopyOfBottomLeft dx dy).2 = r ∧
    (r.moveCopyOfTopRight dx dy).2 = r ∧
    (r.moveCopyOfBottomLeft dx dy).2.bottom_left = r.bottom_left ∧
    (r.moveCopyOfBottomLeft dx dy).2.top_right = r.top_right ∧
    (r.moveCopyOfBottomLeft dx dy).2.width = r.width ∧
    (r.moveCopyOfBottomLeft dx dy).2.height = r.height ∧
    (r.moveCopyOfBottomLeft dx dy).2.area = r.area ∧
    (r.moveCopyOfTopRight dx dy).2.width = r.width ∧
    (r.moveCopyOfTopRight dx dy).2.height = r.height ∧
    (r.moveCopyOfTopRight dx dy).2.area = r.area ∧
    (r.moveCopyOfBottomLeft dx dy).1 = r.bottom_left.move dx dy ∧
    (r.moveCopyOfTopRight dx dy).1 = r.top_right.move dx dy :=
  ⟨rfl, rfl, rfl, rfl, rfl, rfl, rfl, rfl, rfl, rfl, rfl, rfl⟩
